import Mathlib

namespace WebgpuFun

/-!
Verification of the webgpu-fun visualization demos.

The repository holds four browser demos (Three.js "Ephemeral Echoes",
Babylon.js "Neural Constellations", PixiJS "Chrono-Scrolls", Deck.gl
"Data Geysers"), each rendering a small hardcoded list of embedding
records and deriving connection lines, hover/select state, and pan/zoom
viewport updates from them.  This file embeds those data lists and the
pure computations the demos perform on them (edge-connection scans,
select toggles, wheel-zoom math, tick interpolation, renderer-fallback
branching) and proves the stated properties.

Modelling conventions:
- every coordinate in the hardcoded data is an integer, so Euclidean
  distance comparisons `dist < t` in the source are embedded exactly as
  `distSq < t ^ 2` over `Int` (equivalent for nonnegative reals, and the
  source squared distances are integers, never equal to a float rounding
  boundary);
- fractional constants of the source (zoom factors, lerp rates) are
  embedded as exact rationals, modelling the intended real arithmetic;
- React `useState` setters are embedded as pure state-update functions,
  and each demo scene is a state record folded over a list of interaction
  actions.
-/

/-- Integer 3D position vector, as used by the Babylon `Vector3`, the
Three.js position triples and the Deck.gl position arrays (every hardcoded
coordinate is an integer). -/
structure Vec3 where
  x : Int
  y : Int
  z : Int
deriving DecidableEq, Repr

/-- Integer 2D position, as used by the PixiJS `position` objects. -/
structure Vec2 where
  x : Int
  y : Int
deriving DecidableEq, Repr

/-- Squared Euclidean distance of two 3D points.  The source compares
`Vector3.Distance`, `distanceTo` or an explicit `Math.sqrt` of this sum
against a threshold; for integer coordinates `dist < t` holds exactly when
`distSq3 < t ^ 2`. -/
def distSq3 (a b : Vec3) : Int :=
  (a.x - b.x) ^ 2 + (a.y - b.y) ^ 2 + (a.z - b.z) ^ 2

/-- Squared Euclidean distance of two 2D points (the source uses
`Math.hypot` against a threshold). -/
def distSq2 (a b : Vec2) : Int :=
  (a.x - b.x) ^ 2 + (a.y - b.y) ^ 2

/-- One record of `MOCK_EMBEDDINGS_THREE` in ThreeJSApp.tsx:
id, position, cluster, name and a value. -/
structure ThreeEmb where
  id : String
  position : Vec3
  cluster : Nat
  name : String
  value : ℚ
deriving DecidableEq, Repr

/-- One record of `MOCK_EMBEDDINGS_BABYLON` in BabylonApp.tsx:
id, position, cluster, name and a size. -/
structure BabylonEmb where
  id : String
  position : Vec3
  cluster : Nat
  name : String
  size : ℚ
deriving DecidableEq, Repr

/-- One record of `MOCK_EMBEDDINGS_PIXI` in PixiApp.tsx:
id, position, cluster, name, size and a rune character. -/
structure PixiEmb where
  id : String
  position : Vec2
  cluster : Nat
  name : String
  size : Int
  rune : String
deriving DecidableEq, Repr

/-- One record of `MOCK_EMBEDDINGS_DECK` in DeckGLApp.tsx:
id, position, cluster, name, intensity and a size. -/
structure DeckEmb where
  id : String
  position : Vec3
  cluster : Nat
  name : String
  intensity : ℚ
  size : Int
deriving DecidableEq, Repr

/-- The hardcoded Three.js embedding list (ThreeJSApp.tsx lines 9 to 20). -/
def MOCK_EMBEDDINGS_THREE : List ThreeEmb :=
  [ ⟨"emb_0_1_t", ⟨-12, 3, 7⟩, 0, "General Relativity", 0.8⟩,
    ⟨"emb_0_2_t", ⟨-10, 5, 9⟩, 0, "Quantum Mechanics", 0.9⟩,
    ⟨"emb_0_3_t", ⟨-13, 2, 10⟩, 0, "Standard Model", 0.7⟩,
    ⟨"emb_1_1_t", ⟨10, -3, -8⟩, 1, "Convolutional Networks", 0.85⟩,
    ⟨"emb_1_2_t", ⟨12, -5, -6⟩, 1, "Recurrent Networks", 0.75⟩,
    ⟨"emb_1_3_t", ⟨9, -2, -10⟩, 1, "Attention Mechanisms", 0.95⟩,
    ⟨"emb_2_1_t", ⟨-3, -8, -4⟩, 2, "Ecosystem Dynamics", 0.7⟩,
    ⟨"emb_2_2_t", ⟨-5, -10, -2⟩, 2, "Biodiversity Hotspots", 0.8⟩,
    ⟨"emb_3_1_t", ⟨4, 8, 1⟩, 3, "Symbolist Poetry", 0.6⟩,
    ⟨"emb_3_2_t", ⟨2, 10, 3⟩, 3, "Surrealist Painting", 0.7⟩ ]

/-- The hardcoded Babylon embedding list (BabylonApp.tsx lines 13 to 21;
identical in the draft variant). -/
def MOCK_EMBEDDINGS_BABYLON : List BabylonEmb :=
  [ ⟨"b_emb_0_1", ⟨-15, 5, 8⟩, 0, "Quantum Entanglement", 1.2⟩,
    ⟨"b_emb_0_2", ⟨-12, 7, 10⟩, 0, "String Theory", 1.0⟩,
    ⟨"b_emb_1_1", ⟨10, -5, -10⟩, 1, "Neural Networks", 1.1⟩,
    ⟨"b_emb_1_2", ⟨12, -7, -8⟩, 1, "Reinforcement Learning", 1.0⟩,
    ⟨"b_emb_0_3", ⟨-18, 3, 12⟩, 0, "Cosmic Inflation", 0.9⟩,
    ⟨"b_emb_1_3", ⟨8, -9, -12⟩, 1, "Generative Adversarial Networks", 1.3⟩,
    ⟨"b_emb_2_1", ⟨0, 10, -5⟩, 1, "Large Language Models", 1.5⟩ ]

/-- The hardcoded PixiJS embedding list (PixiApp.tsx lines 38 to 45;
identical positions in the draft variant). -/
def MOCK_EMBEDDINGS_PIXI : List PixiEmb :=
  [ ⟨"p_emb_0_1", ⟨200, 300⟩, 0, "Library of Alexandria", 25, "📜"⟩,
    ⟨"p_emb_0_2", ⟨350, 250⟩, 0, "Oracle of Delphi", 30, "🧿"⟩,
    ⟨"p_emb_1_1", ⟨700, 500⟩, 1, "Philosopher\x27s Stone", 35, "💎"⟩,
    ⟨"p_emb_1_2", ⟨850, 450⟩, 1, "Aqua Vitae", 28, "💧"⟩,
    ⟨"p_emb_0_3", ⟨280, 450⟩, 0, "Antikythera Mechanism", 22, "⚙️"⟩,
    ⟨"p_emb_1_3", ⟨780, 600⟩, 1, "Caduceus Staff", 32, "⚕️"⟩ ]

/-- The hardcoded Deck.gl embedding list (DeckGLApp.tsx lines 13 to 20;
identical in the draft variant). -/
def MOCK_EMBEDDINGS_DECK : List DeckEmb :=
  [ ⟨"d_emb_0_1", ⟨-60, 20, 10⟩, 0, "Stellar Nucleosynthesis", 0.9, 15⟩,
    ⟨"d_emb_0_2", ⟨-50, 25, 15⟩, 0, "Supernova Remnants", 1.0, 18⟩,
    ⟨"d_emb_1_1", ⟨40, -30, -5⟩, 1, "Deep Sea Vents", 0.85, 14⟩,
    ⟨"d_emb_1_2", ⟨50, -35, 3⟩, 1, "Bioluminescence", 0.95, 17⟩,
    ⟨"d_emb_0_3", ⟨-70, 15, 5⟩, 0, "Nebula Formation", 0.7, 12⟩,
    ⟨"d_emb_1_3", ⟨30, -25, -10⟩, 1, "Hydrothermal Chimneys", 0.8, 16⟩ ]

instance : Inhabited ThreeEmb := ⟨⟨"", ⟨0, 0, 0⟩, 0, "", 0⟩⟩
instance : Inhabited BabylonEmb := ⟨⟨"", ⟨0, 0, 0⟩, 0, "", 0⟩⟩
instance : Inhabited PixiEmb := ⟨⟨"", ⟨0, 0⟩, 0, "", 0, ""⟩⟩
instance : Inhabited DeckEmb := ⟨⟨"", ⟨0, 0, 0⟩, 0, "", 0, 0⟩⟩

/-- The record of the Babylon list at an index (out of range gives the
default record, never reached by the loops below). -/
def babylonAt (i : Nat) : BabylonEmb := MOCK_EMBEDDINGS_BABYLON.getD i default

/-- The record of the Deck.gl list at an index. -/
def deckAt (i : Nat) : DeckEmb := MOCK_EMBEDDINGS_DECK.getD i default

/-! Edge-connection scans of BabylonApp (tethers) and DeckGLApp
(energy-streams): an outer pass over the list with index i, an inner loop
over j from i+1 to n-1, pushing a connection when the records share a
cluster and their Euclidean distance is below the threshold (15 for the
Babylon tethers, 45 for the Deck.gl streams). -/

/-- The index pairs for which BabylonApp builds a CosmicTether
(BabylonApp.tsx lines 156 to 169 and the draft variant lines 176 to 189):
j ranges over i+1 to n-1 and the pair is connected when the clusters match
and the distance between the positions is below 15. -/
def tethers : List (Nat × Nat) :=
  (List.range MOCK_EMBEDDINGS_BABYLON.length).flatMap fun i =>
    ((List.range MOCK_EMBEDDINGS_BABYLON.length).drop (i + 1)).filterMap fun j =>
      if (babylonAt i).cluster = (babylonAt j).cluster ∧
          distSq3 (babylonAt i).position (babylonAt j).position < 15 ^ 2
      then some (i, j) else none

/-- One datum of the PathLayer "energy-streams" data array in
DeckGLApp.tsx: the path endpoints, the secondary cluster color and an
opacity. -/
structure EnergyStream where
  pathFrom : Vec3
  pathTo : Vec3
  color : List Nat
  opacity : Nat
deriving DecidableEq, Repr

/-- The secondary colors of CLUSTER_COLORS_DECK. -/
def CLUSTER_COLORS_DECK_secondary : List (List Nat) :=
  [[255, 220, 80, 255], [80, 220, 255, 255]]

/-- The PathLayer "energy-streams" data of DeckGLApp.tsx (lines 121 to 146
and the draft variant): for j from i+1 to n-1, a path from emb1.position to
emb2.position is pushed when the clusters match and the distance is below
45; the opacity is 160 when no item is selected or an endpoint is the
selected item, 60 otherwise. -/
def energyStreams (selectedItemId : Option String) : List EnergyStream :=
  let activeEmb := MOCK_EMBEDDINGS_DECK.find? fun e => some e.id = selectedItemId
  (List.range MOCK_EMBEDDINGS_DECK.length).flatMap fun i =>
    ((List.range MOCK_EMBEDDINGS_DECK.length).drop (i + 1)).filterMap fun j =>
      let emb1 := deckAt i
      let emb2 := deckAt j
      let isConnectedToSelected : Bool :=
        match activeEmb with
        | some act => emb1.id == act.id || emb2.id == act.id
        | none => false
      if emb1.cluster = emb2.cluster ∧
          distSq3 emb1.position emb2.position < 45 ^ 2
      then some ⟨emb1.position, emb2.position,
              (CLUSTER_COLORS_DECK_secondary.getD
                (emb1.cluster % CLUSTER_COLORS_DECK_secondary.length) []),
              if isConnectedToSelected || selectedItemId.isNone then 160 else 60⟩
      else none

/-- The endpoint pairs of the Deck.gl energy streams. -/
def energyStreamEndpoints (selectedItemId : Option String) : List (Vec3 × Vec3) :=
  (energyStreams selectedItemId).map fun s => (s.pathFrom, s.pathTo)

/-- All values the Deck.gl selection can take: nothing selected or one of
the six record ids. -/
def deckSelectionOptions : List (Option String) :=
  none :: MOCK_EMBEDDINGS_DECK.map fun e => some e.id

/-! Hover/select driven connection lines of ThreeJSApp (wisps) and
PixiApp (threads). -/

/-- The wisp endpoint id pairs of ThreeJSApp.tsx (lines 128 to 144): the
active glyph is `selectedGlyph || hoveredGlyph`; a wisp goes from the
active record to every other record of the same cluster within distance
12. -/
def wisps (hoveredGlyph selectedGlyph : Option String) : List (String × String) :=
  let activeGlyphId :=
    match selectedGlyph with
    | some s => some s
    | none => hoveredGlyph
  match activeGlyphId with
  | none => []
  | some aid =>
    match MOCK_EMBEDDINGS_THREE.find? (fun e => e.id == aid) with
    | none => []
    | some activeEmb =>
      MOCK_EMBEDDINGS_THREE.filterMap fun otherEmb =>
        if otherEmb.id ≠ activeEmb.id ∧ otherEmb.cluster = activeEmb.cluster ∧
            distSq3 activeEmb.position otherEmb.position < 12 ^ 2
        then some (activeEmb.id, otherEmb.id) else none

/-- The weaving-thread endpoint id pairs of PixiApp.tsx (lines 254 to 269
and the draft variant): same shape as the Three.js wisps, with 2D
positions and threshold 400. -/
def threads (hoveredRune selectedRune : Option String) : List (String × String) :=
  let activeRuneId :=
    match selectedRune with
    | some s => some s
    | none => hoveredRune
  match activeRuneId with
  | none => []
  | some aid =>
    match MOCK_EMBEDDINGS_PIXI.find? (fun e => e.id == aid) with
    | none => []
    | some activeEmb =>
      MOCK_EMBEDDINGS_PIXI.filterMap fun otherEmb =>
        if otherEmb.id ≠ activeEmb.id ∧ otherEmb.cluster = activeEmb.cluster ∧
            distSq2 activeEmb.position otherEmb.position < 400 ^ 2
        then some (activeEmb.id, otherEmb.id) else none

/-- Spec-side definition, following the claim sentence for the Three.js
demo: the set of pairs (active, other) where active is the selected point
if one is selected and the hovered point otherwise, and other is a
distinct point of the same cluster whose distance from the active point is
below 12; empty when nothing is hovered or selected. -/
def specConnectionsThree (hovered selected : Option String) : List (String × String) :=
  match (if selected.isSome then selected else hovered) with
  | none => []
  | some aid =>
    match MOCK_EMBEDDINGS_THREE.find? (fun e => e.id == aid) with
    | none => []
    | some act =>
      (MOCK_EMBEDDINGS_THREE.filter fun o =>
        decide (o.id ≠ act.id ∧ o.cluster = act.cluster ∧
          distSq3 act.position o.position < 12 ^ 2)).map fun o => (act.id, o.id)

/-- Spec-side definition for the PixiJS demo, with threshold 400 over the
2D positions. -/
def specConnectionsPixi (hovered selected : Option String) : List (String × String) :=
  match (if selected.isSome then selected else hovered) with
  | none => []
  | some aid =>
    match MOCK_EMBEDDINGS_PIXI.find? (fun e => e.id == aid) with
    | none => []
    | some act =>
      (MOCK_EMBEDDINGS_PIXI.filter fun o =>
        decide (o.id ≠ act.id ∧ o.cluster = act.cluster ∧
          distSq2 act.position o.position < 400 ^ 2)).map fun o => (act.id, o.id)

/-! Renderer initialization of BabylonApp and ThreeJSApp: try WebGPU,
catch, fall back to WebGL.  The async try/catch is embedded as a pure
function of the environment probe outcomes: which probe succeeds and
whether WebGPU engine construction or init throws. -/

/-- Which engine the initialization run constructs. -/
inductive EngineKind where
  | webgpu
  | webgl
deriving DecidableEq, Repr

/-- The observable outcome of one initialization run: whether the catch
branch logged its warning, whether the error message state was set, which
engine was constructed, and the renderer type string displayed. -/
structure InitOutcome where
  warned : Bool
  errorRecorded : Bool
  engine : EngineKind
  rendererType : String
deriving DecidableEq, Repr

/-- Environment of the Babylon initialize run (BabylonApp.tsx lines 210 to
230): whether `WebGPUEngine.IsSupportedAsync` reports support and whether
`new WebGPUEngine` or `initAsync` throws. -/
structure BabylonEnv where
  webgpuSupported : Bool
  webgpuInitThrows : Bool
deriving DecidableEq, Repr

/-- The Babylon initialize function (named initializeEngine here since
initialize is a Lean keyword): inside the try, an unsupported probe throws
and a supported probe constructs and inits the WebGPU engine, setting the
type to WebGPU; the catch logs a warning, records the error message,
constructs a WebGL `Engine` and sets the type to WebGL (Fallback). -/
def initializeEngine (env : BabylonEnv) : InitOutcome :=
  if env.webgpuSupported && !env.webgpuInitThrows then
    ⟨false, false, .webgpu, "WebGPU"⟩
  else
    ⟨true, true, .webgl, "WebGL (Fallback)"⟩

/-- Environment of the Three.js `initRenderer` (ThreeJSApp.tsx lines 175
to 202): whether the THREE build exposes `WebGPURenderer`, whether
`navigator.gpu` exists, whether the adapter request succeeds, and whether
renderer construction or `init` throws. -/
structure ThreeEnv where
  webgpuRendererInBuild : Bool
  navigatorGpu : Bool
  adapterAvailable : Bool
  webgpuInitThrows : Bool
deriving DecidableEq, Repr

/-- The Three.js `initRenderer`: the try succeeds with a WebGPU renderer
and type WebGPU only when the build check, `navigator.gpu`, the adapter
request and `init` all succeed; every other path throws into the catch,
which warns, records the error, constructs a `WebGLRenderer` and sets the
type to WebGL (Fallback). -/
def initRenderer (env : ThreeEnv) : InitOutcome :=
  if env.webgpuRendererInBuild && env.navigatorGpu then
    if env.adapterAvailable then
      if !env.webgpuInitThrows then ⟨false, false, .webgpu, "WebGPU"⟩
      else ⟨true, true, .webgl, "WebGL (Fallback)"⟩
    else ⟨true, true, .webgl, "WebGL (Fallback)"⟩
  else ⟨true, true, .webgl, "WebGL (Fallback)"⟩

/-! Select toggles: every demo stores the selection with the update
`prev => prev === id ? null : id`. -/

/-- BabylonApp `handleStarClick` (lines 183 to 185): toggle the selected
star id. -/
def handleStarClick (id : String) (prevId : Option String) : Option String :=
  if prevId = some id then none else some id

/-- PixiApp `handleRuneClick` (lines 184 to 186 of the v8 file and the
draft variant): toggle the selected rune id. -/
def handleRuneClick (id : String) (prev : Option String) : Option String :=
  if prev = some id then none else some id

/-- The ThreeJSApp glyph onClick update (line 153):
`setSelectedGlyph(prev => prev === id ? null : id)`. -/
def threeGlyphClickUpdate (id : String) (prev : Option String) : Option String :=
  if prev = some id then none else some id

/-- The DeckGLApp scatterplot onClick update (line 114) for a pick that
hit an object with the given id. -/
def deckLayerClickUpdate (id : String) (prev : Option String) : Option String :=
  if prev = some id then none else some id

/-! PixiApp pan/zoom math (the onWheel handler, PixiApp.tsx lines 214 to
233 and the draft variant lines 565 to 584, and the container placement at
lines 278 to 279).  Exact rational arithmetic models the intended real
arithmetic of the handler. -/

/-- The new zoom computed by onWheel:
`Math.max(0.15, Math.min(3.5, zoom * (1 + deltaY * -0.001)))`. -/
def onWheelNewZoom (zoom deltaY : ℚ) : ℚ :=
  max 0.15 (min 3.5 (zoom * (1 + deltaY * (-0.001))))

/-- The world coordinate under the mouse along one axis:
`view + (mouseScreen - screen/2) / zoom`. -/
def worldPointCoord (view zoom screenDim mouseScreen : ℚ) : ℚ :=
  view + (mouseScreen - screenDim / 2) / zoom

/-- The new viewport center coordinate set by onWheel:
`worldPoint - (mouseScreen - screen/2) / newZoom`. -/
def onWheelNewView (view zoom newZoom screenDim mouseScreen : ℚ) : ℚ :=
  worldPointCoord view zoom screenDim mouseScreen -
    (mouseScreen - screenDim / 2) / newZoom

/-- The container placement along one axis:
`containerX = screen.width / 2 - viewX * zoom`. -/
def containerCoord (screenDim view zoom : ℚ) : ℚ :=
  screenDim / 2 - view * zoom

/-- Where a world coordinate lands on screen: the container offset plus
the world coordinate scaled by the zoom. -/
def screenOfWorld (screenDim view zoom w : ℚ) : ℚ :=
  containerCoord screenDim view zoom + w * zoom

/-- The drag-move viewport update of onDragMove:
`pos - d / zoom` along one axis. -/
def onDragMoveView (view zoom d : ℚ) : ℚ := view - d / zoom

/-! Demo state machines: each scene keeps its interaction state in React
`useState` cells; the embedding arrays are module-level constants that the
handlers only read.  Each scene is embedded as a state record (with the
embedding list as an explicit component) folded over interaction
actions. -/

/-- PixiApp scroll size constant. -/
def SCROLL_WIDTH : ℚ := 2500

/-- PixiApp scroll size constant. -/
def SCROLL_HEIGHT : ℚ := 1500

/-- The interaction state of the PixiJS ChronoScrollsSceneContent:
hovered rune, selected rune, viewport center, zoom, and the embedding
list. -/
structure ChronoScrollsState where
  hoveredRune : Option String
  selectedRune : Option String
  viewX : ℚ
  viewY : ℚ
  zoom : ℚ
  embeddings : List PixiEmb
deriving Repr

/-- The initial PixiJS state: nothing hovered or selected, viewport at the
scroll center, zoom 0.75, the hardcoded list. -/
def chronoInit : ChronoScrollsState :=
  ⟨none, none, SCROLL_WIDTH / 2, SCROLL_HEIGHT / 2, 0.75, MOCK_EMBEDDINGS_PIXI⟩

/-- The PixiJS interactions: rune pointer-over and pointer-out, a rune
tap, a drag move by a screen delta, and a wheel event. -/
inductive ChronoAction where
  | pointerOverRune (id : String)
  | pointerOutRune
  | runeTap (id : String)
  | dragMove (dx dy : ℚ)
  | wheel (deltaY mouseScreenX mouseScreenY screenW screenH : ℚ)

/-- One PixiJS interaction step, from the handlers of
ChronoScrollsSceneContent. -/
def chronoStep (s : ChronoScrollsState) : ChronoAction → ChronoScrollsState
  | .pointerOverRune id => { s with hoveredRune := some id }
  | .pointerOutRune => { s with hoveredRune := none }
  | .runeTap id => { s with selectedRune := handleRuneClick id s.selectedRune }
  | .dragMove dx dy =>
      { s with viewX := onDragMoveView s.viewX s.zoom dx,
               viewY := onDragMoveView s.viewY s.zoom dy }
  | .wheel deltaY mx my w h =>
      { s with zoom := onWheelNewZoom s.zoom deltaY,
               viewX := onWheelNewView s.viewX s.zoom (onWheelNewZoom s.zoom deltaY) w mx,
               viewY := onWheelNewView s.viewY s.zoom (onWheelNewZoom s.zoom deltaY) h my }

/-- The interaction state of the Three.js EphemeralEchoesScene. -/
structure EphemeralEchoesState where
  hoveredGlyph : Option String
  selectedGlyph : Option String
  embeddings : List ThreeEmb
deriving Repr

/-- The initial Three.js scene state. -/
def ephemeralInit : EphemeralEchoesState := ⟨none, none, MOCK_EMBEDDINGS_THREE⟩

/-- The Three.js interactions: glyph pointer-over and pointer-out and a
glyph click. -/
inductive EphemeralAction where
  | pointerOver (id : String)
  | pointerOut
  | click (id : String)

/-- One Three.js interaction step, from the EmbeddingGlyph handlers. -/
def ephemeralStep (s : EphemeralEchoesState) : EphemeralAction → EphemeralEchoesState
  | .pointerOver id => { s with hoveredGlyph := some id }
  | .pointerOut => { s with hoveredGlyph := none }
  | .click id => { s with selectedGlyph := threeGlyphClickUpdate id s.selectedGlyph }

/-- The Deck.gl orbit view state (INITIAL_VIEW_STATE fields). -/
structure DeckViewState where
  targetX : ℚ
  targetY : ℚ
  targetZ : ℚ
  rotationX : ℚ
  rotationOrbit : ℚ
  zoom : ℚ
  minZoom : ℚ
  maxZoom : ℚ
deriving Repr

/-- INITIAL_VIEW_STATE of DeckGLApp.tsx. -/
def INITIAL_VIEW_STATE : DeckViewState := ⟨0, 0, 0, 25, -35, 1.3, 0.4, 8⟩

/-- The interaction state of DeckGLApp: hover info (the hovered record
id), selection, the animation clock, the controlled view state, and the
embedding list. -/
structure DataGeysersState where
  hoverInfo : Option String
  selectedItemId : Option String
  time : ℚ
  viewState : DeckViewState
  embeddings : List DeckEmb
deriving Repr

/-- The initial Deck.gl state. -/
def geysersInit : DataGeysersState :=
  ⟨none, none, 0, INITIAL_VIEW_STATE, MOCK_EMBEDDINGS_DECK⟩

/-- The Deck.gl interactions: hover, a click on a picked object, one
animation frame (time advances by 0.015), and a controller view-state
change. -/
inductive GeysersAction where
  | hover (id : Option String)
  | click (id : String)
  | animationFrame
  | viewStateChange (vs : DeckViewState)

/-- One Deck.gl interaction step, from the DeckGLApp handlers. -/
def geysersStep (s : DataGeysersState) : GeysersAction → DataGeysersState
  | .hover id => { s with hoverInfo := id }
  | .click id => { s with selectedItemId := deckLayerClickUpdate id s.selectedItemId }
  | .animationFrame => { s with time := s.time + 0.015 }
  | .viewStateChange vs => { s with viewState := vs }

/-- The interaction state of the Babylon NeuralConstellationsScene. -/
structure NeuralConstellationsState where
  selectedStarId : Option String
  embeddings : List BabylonEmb
deriving Repr

/-- The initial Babylon scene state. -/
def constellationsInit : NeuralConstellationsState := ⟨none, MOCK_EMBEDDINGS_BABYLON⟩

/-- The Babylon interactions: a star click. -/
inductive ConstellationsAction where
  | starClick (id : String)

/-- One Babylon interaction step. -/
def constellationsStep (s : NeuralConstellationsState) :
    ConstellationsAction → NeuralConstellationsState
  | .starClick id => { s with selectedStarId := handleStarClick id s.selectedStarId }

/-! The isHovered / isSelected glyph interface of ThreeJSApp and
PixiApp. -/

/-- The isHovered value ThreeJSApp passes to an EmbeddingGlyph (line 154):
`hoveredGlyph === emb.id && selectedGlyph !== emb.id`. -/
def threeGlyphIsHovered (hoveredGlyph selectedGlyph : Option String) (id : String) : Bool :=
  (hoveredGlyph == some id) && !(selectedGlyph == some id)

/-- The isSelected value ThreeJSApp passes to an EmbeddingGlyph (line
155). -/
def threeGlyphIsSelected (selectedGlyph : Option String) (id : String) : Bool :=
  selectedGlyph == some id

/-- The isHovered value PixiApp passes to a RuneGlyph (line 289 and the
draft variant line 636). -/
def runeGlyphIsHovered (hoveredRune selectedRune : Option String) (id : String) : Bool :=
  (hoveredRune == some id) && !(selectedRune == some id)

/-- The isSelected value PixiApp passes to a RuneGlyph (line 288). -/
def runeGlyphIsSelected (selectedRune : Option String) (id : String) : Bool :=
  selectedRune == some id

/-! The WeavingThread growth animation of PixiApp (lines 145 to 150 of
the v8 file and lines 505 to 507 of the draft variant). -/

/-- One WeavingThread tick: while the progress is below 1 it becomes
`Math.min(1, progress + delta * 0.025)`; at 1 the guard stops updates. -/
def tickThreadProgress (progress delta : ℚ) : ℚ :=
  if progress < 1 then min 1 (progress + delta * 0.025) else progress

/-- C5: every hardcoded embedding list has at most 10 records; the Three.js
list has exactly 10, the Babylon list 7, the PixiJS and Deck.gl lists 6
each, so the pairwise edge scans run over fixed lists of at most 10 items. -/
theorem mock_embedding_lists_lengths :
    MOCK_EMBEDDINGS_THREE.length = 10 ∧
    MOCK_EMBEDDINGS_BABYLON.length = 7 ∧
    MOCK_EMBEDDINGS_PIXI.length = 6 ∧
    MOCK_EMBEDDINGS_DECK.length = 6 ∧
    MOCK_EMBEDDINGS_THREE.length ≤ 10 ∧
    MOCK_EMBEDDINGS_BABYLON.length ≤ 10 ∧
    MOCK_EMBEDDINGS_PIXI.length ≤ 10 ∧
    MOCK_EMBEDDINGS_DECK.length ≤ 10 := by
  decide

/-- C1: the edge connection is extensionally a distance-threshold pairwise
check over each hardcoded list.  Each unordered pair is considered exactly
once (the produced index pairs satisfy i < j and are duplicate-free), a
tether or stream is created for a pair exactly when the Euclidean distance
between the positions is below the threshold (15 for Babylon, 45 for
Deck.gl, compared via exact integer squared distances), and no connection
is created for a pair at or above the threshold.  On these hardcoded lists
the same-cluster conjunct of the source condition excludes no pair that is
within the threshold, so membership is equivalent to the distance check
alone, as the spec states. -/
theorem edge_connections_are_distance_threshold_checks :
    (tethers.Nodup ∧ ∀ p ∈ tethers, p.1 < p.2 ∧ p.2 < 7) ∧
    (∀ i ∈ List.range 7, ∀ j ∈ List.range 7, i < j →
      ((i, j) ∈ tethers ↔
        distSq3 (babylonAt i).position (babylonAt j).position < 15 ^ 2)) ∧
    (∀ sel ∈ deckSelectionOptions,
      (energyStreamEndpoints sel).Nodup ∧
      ∀ i ∈ List.range 6, ∀ j ∈ List.range 6, i < j →
        (((deckAt i).position, (deckAt j).position) ∈ energyStreamEndpoints sel ↔
          distSq3 (deckAt i).position (deckAt j).position < 45 ^ 2)) := by
  decide

/-- Pushing `f a` under a guard over a list is filtering by the guard and
mapping, the shape shared by the wisp and thread loops. -/
theorem filterMap_guard_eq_filter_map {α β : Type} (p : α → Prop) [DecidablePred p]
    (f : α → β) (l : List α) :
    (l.filterMap fun a => if p a then some (f a) else none) =
      (l.filter fun a => decide (p a)).map f := by
  induction l with
  | nil => rfl
  | cons a l ih =>
    by_cases h : p a <;>
      simp [List.filterMap_cons, List.filter_cons, h, ih]

/-- C2: for every hover and selection state, the wisp set of the Three.js
demo and the thread set of the PixiJS demo are exactly the sets the spec
describes: pairs from the active point (the selected one if any, else the
hovered one) to each distinct same-cluster point within the threshold (12
for Three.js, 400 for PixiJS); with nothing hovered or selected both sets
are empty. -/
theorem connection_lines_from_active_point :
    (∀ hoveredGlyph selectedGlyph : Option String,
      wisps hoveredGlyph selectedGlyph = specConnectionsThree hoveredGlyph selectedGlyph) ∧
    (∀ hoveredRune selectedRune : Option String,
      threads hoveredRune selectedRune = specConnectionsPixi hoveredRune selectedRune) ∧
    wisps none none = [] ∧ threads none none = [] := by
  refine ⟨fun hovered selected => ?_, fun hovered selected => ?_, rfl, rfl⟩
  · unfold wisps specConnectionsThree
    cases selected <;> cases hovered <;>
      simp only [Option.isSome_some, Option.isSome_none, if_true, if_false,
        Bool.false_eq_true] <;>
      first
        | rfl
        | (rename_i aid
           cases hf : MOCK_EMBEDDINGS_THREE.find? (fun e => e.id == aid) <;>
             simp [hf, filterMap_guard_eq_filter_map])
  · unfold threads specConnectionsPixi
    cases selected <;> cases hovered <;>
      simp only [Option.isSome_some, Option.isSome_none, if_true, if_false,
        Bool.false_eq_true] <;>
      first
        | rfl
        | (rename_i aid
           cases hf : MOCK_EMBEDDINGS_PIXI.find? (fun e => e.id == aid) <;>
             simp [hf, filterMap_guard_eq_filter_map])

/-- C3: in both apps, whenever the WebGPU probe reports unsupported or
WebGPU creation/initialization throws, the run warns, records an error,
constructs a WebGL engine and displays WebGL (Fallback); when WebGPU
initialization succeeds the run constructs the WebGPU engine (no WebGL
engine), displays WebGPU, and neither warns nor records an error. -/
theorem renderer_init_webgpu_fallback :
    (∀ sup throws : Bool,
      (¬(sup = true ∧ throws = false) →
        initializeEngine ⟨sup, throws⟩ = ⟨true, true, .webgl, "WebGL (Fallback)"⟩) ∧
      (sup = true ∧ throws = false →
        initializeEngine ⟨sup, throws⟩ = ⟨false, false, .webgpu, "WebGPU"⟩)) ∧
    (∀ build gpu adapter throws : Bool,
      (¬(build = true ∧ gpu = true ∧ adapter = true ∧ throws = false) →
        initRenderer ⟨build, gpu, adapter, throws⟩ =
          ⟨true, true, .webgl, "WebGL (Fallback)"⟩) ∧
      (build = true ∧ gpu = true ∧ adapter = true ∧ throws = false →
        initRenderer ⟨build, gpu, adapter, throws⟩ =
          ⟨false, false, .webgpu, "WebGPU"⟩)) := by
  constructor
  · intro sup throws
    cases sup <;> cases throws <;> simp [initializeEngine]
  · intro build gpu adapter throws
    cases build <;> cases gpu <;> cases adapter <;> cases throws <;>
      simp [initRenderer]

/-- C4: in every demo the click handler is a toggle: clicking a point sets
the selection to none exactly when that point was already selected, and to
the clicked id otherwise; clicking the same point twice starting from no
selection returns to no selection. -/
theorem select_click_is_a_toggle :
    ∀ (prev : Option String) (id : String),
      (handleStarClick id prev = none ↔ prev = some id) ∧
      (handleStarClick id prev = some id ↔ prev ≠ some id) ∧
      handleRuneClick id prev = handleStarClick id prev ∧
      threeGlyphClickUpdate id prev = handleStarClick id prev ∧
      deckLayerClickUpdate id prev = handleStarClick id prev ∧
      handleStarClick id (handleStarClick id none) = none ∧
      handleRuneClick id (handleRuneClick id none) = none ∧
      threeGlyphClickUpdate id (threeGlyphClickUpdate id none) = none ∧
      deckLayerClickUpdate id (deckLayerClickUpdate id none) = none := by
  intro prev id
  by_cases h : prev = some id <;>
    simp [handleStarClick, handleRuneClick, threeGlyphClickUpdate,
      deckLayerClickUpdate, h]

/-- The wheel zoom is always at least 0.15. -/
theorem onWheelNewZoom_lower (zoom deltaY : ℚ) : 0.15 ≤ onWheelNewZoom zoom deltaY :=
  le_max_left _ _

/-- The wheel zoom is always at most 3.5. -/
theorem onWheelNewZoom_upper (zoom deltaY : ℚ) : onWheelNewZoom zoom deltaY ≤ 3.5 :=
  max_le (by norm_num) (min_le_left _ _)

/-- The wheel zoom is positive, so dividing by it is well defined. -/
theorem onWheelNewZoom_pos (zoom deltaY : ℚ) : 0 < onWheelNewZoom zoom deltaY :=
  lt_of_lt_of_le (by norm_num) (onWheelNewZoom_lower zoom deltaY)

/-- Folding the zoom update keeps any in-range start in range. -/
theorem foldl_onWheelNewZoom_bounds (ds : List ℚ) :
    ∀ z : ℚ, 0.15 ≤ z → z ≤ 3.5 →
      0.15 ≤ ds.foldl onWheelNewZoom z ∧ ds.foldl onWheelNewZoom z ≤ 3.5 := by
  induction ds with
  | nil => exact fun z h1 h2 => ⟨h1, h2⟩
  | cons d ds ih =>
    intro z h1 h2
    simpa using ih (onWheelNewZoom z d)
      (onWheelNewZoom_lower z d) (onWheelNewZoom_upper z d)

/-- C7: the PixiJS wheel handler clamps zoom.  Each wheel event replaces
the zoom with max(0.15, min(3.5, zoom * (1 + (-0.001) * deltaY))), and
starting from the initial zoom 0.75 the zoom after any sequence of wheel
events stays in the closed interval from 0.15 to 3.5. -/
theorem wheel_zoom_clamped :
    (∀ zoom deltaY : ℚ,
      onWheelNewZoom zoom deltaY =
        max 0.15 (min 3.5 (zoom * (1 + (-0.001) * deltaY)))) ∧
    (∀ deltas : List ℚ,
      0.15 ≤ deltas.foldl onWheelNewZoom 0.75 ∧
      deltas.foldl onWheelNewZoom 0.75 ≤ 3.5) := by
  constructor
  · intro zoom deltaY
    unfold onWheelNewZoom
    rw [mul_comm deltaY (-0.001)]
  · intro deltas
    exact foldl_onWheelNewZoom_bounds deltas 0.75 (by norm_num) (by norm_num)

/-- C8: the wheel zoom is anchored at the cursor.  The world coordinate
that the old viewport center and zoom place under the mouse is placed at
the same screen coordinate by the new viewport center and the new zoom the
handler computes (one axis; the x and y updates are symmetric instances).
The old zoom must be nonzero for the old projection to be meaningful; the
new zoom is clamped to at least 0.15 and never vanishes. -/
theorem wheel_zoom_anchored_at_cursor
    (view zoom screenDim mouseScreen deltaY : ℚ) (hz : zoom ≠ 0) :
    screenOfWorld screenDim view zoom
        (worldPointCoord view zoom screenDim mouseScreen) = mouseScreen ∧
    screenOfWorld screenDim
        (onWheelNewView view zoom (onWheelNewZoom zoom deltaY) screenDim mouseScreen)
        (onWheelNewZoom zoom deltaY)
        (worldPointCoord view zoom screenDim mouseScreen) = mouseScreen := by
  have hz2 : onWheelNewZoom zoom deltaY ≠ 0 := ne_of_gt (onWheelNewZoom_pos zoom deltaY)
  constructor
  · unfold screenOfWorld containerCoord worldPointCoord
    field_simp
    ring
  · unfold screenOfWorld containerCoord onWheelNewView worldPointCoord
    field_simp
    ring

/-- Witness for C8 at a concrete input: viewport center 1250, zoom 3/4,
screen width 800, mouse at 100, wheel delta 120. -/
theorem wheel_zoom_anchored_at_cursor_witness :
    screenOfWorld 800 1250 (3/4)
        (worldPointCoord 1250 (3/4) 800 100) = 100 ∧
    screenOfWorld 800
        (onWheelNewView 1250 (3/4) (onWheelNewZoom (3/4) 120) 800 100)
        (onWheelNewZoom (3/4) 120)
        (worldPointCoord 1250 (3/4) 800 100) = 100 :=
  wheel_zoom_anchored_at_cursor 1250 (3/4) 800 100 120 (by norm_num)

/-- A projection a step function never changes is unchanged by any fold of
steps. -/
theorem foldl_preserves {σ α β : Type} (step : σ → α → σ) (proj : σ → β)
    (hstep : ∀ s a, proj (step s a) = proj s) :
    ∀ (l : List α) (s : σ), proj (l.foldl step s) = proj s := by
  intro l
  induction l with
  | nil => intro s; rfl
  | cons a l ih => intro s; rw [List.foldl_cons, ih, hstep]

/-- C6: the embedding data is fixed.  Each record type carries an id, a
position, a cluster index, a name and a size or intensity (the structure
fields above), and in every demo any sequence of interactions (hover,
select, pan, zoom, per-frame tick, view-state change) leaves the embedding
array equal to its initial hardcoded value: no field mutation, reorder or
length change. -/
theorem embedding_data_never_mutated :
    ∀ (cas : List ChronoAction) (eas : List EphemeralAction)
      (das : List GeysersAction) (nas : List ConstellationsAction),
      (cas.foldl chronoStep chronoInit).embeddings = MOCK_EMBEDDINGS_PIXI ∧
      (eas.foldl ephemeralStep ephemeralInit).embeddings = MOCK_EMBEDDINGS_THREE ∧
      (das.foldl geysersStep geysersInit).embeddings = MOCK_EMBEDDINGS_DECK ∧
      (nas.foldl constellationsStep constellationsInit).embeddings =
        MOCK_EMBEDDINGS_BABYLON := by
  intro cas eas das nas
  refine ⟨?_, ?_, ?_, ?_⟩
  · exact foldl_preserves chronoStep (fun s => s.embeddings)
      (fun s a => by cases a <;> rfl) cas chronoInit
  · exact foldl_preserves ephemeralStep (fun s => s.embeddings)
      (fun s a => by cases a <;> rfl) eas ephemeralInit
  · exact foldl_preserves geysersStep (fun s => s.embeddings)
      (fun s a => by cases a <;> rfl) das geysersInit
  · exact foldl_preserves constellationsStep (fun s => s.embeddings)
      (fun s a => by cases a; rfl) nas constellationsInit

/-- C9: hovered and selected are mutually exclusive at the glyph
interface.  In the Three.js and PixiJS demos, for every glyph and every
hover/selection state, the isHovered value passed to the glyph is false
whenever that glyph is the selected one, so no glyph receives both flags
at once. -/
theorem glyph_hovered_selected_exclusive :
    ∀ (hovered selected : Option String) (id : String),
      (threeGlyphIsSelected selected id = true →
        threeGlyphIsHovered hovered selected id = false) ∧
      ¬(threeGlyphIsHovered hovered selected id = true ∧
        threeGlyphIsSelected selected id = true) ∧
      (runeGlyphIsSelected selected id = true →
        runeGlyphIsHovered hovered selected id = false) ∧
      ¬(runeGlyphIsHovered hovered selected id = true ∧
        runeGlyphIsSelected selected id = true) := by
  intro hovered selected id
  simp [threeGlyphIsHovered, threeGlyphIsSelected,
    runeGlyphIsHovered, runeGlyphIsSelected]
  intro h
  simp [h]

/-- A tick with nonnegative delta keeps the progress inside the unit
interval. -/
theorem tickThreadProgress_mem (p d : ℚ) (hd : 0 ≤ d) (h0 : 0 ≤ p) (h1 : p ≤ 1) :
    0 ≤ tickThreadProgress p d ∧ tickThreadProgress p d ≤ 1 := by
  unfold tickThreadProgress
  by_cases h : p < 1
  · rw [if_pos h]
    exact ⟨le_min (by norm_num)
      (add_nonneg h0 (mul_nonneg hd (by norm_num))), min_le_left _ _⟩
  · rw [if_neg h]
    exact ⟨h0, h1⟩

/-- Folding ticks with nonnegative deltas keeps the progress inside the
unit interval. -/
theorem foldl_tickThreadProgress_bounds (ds : List ℚ) :
    ∀ p : ℚ, (∀ d ∈ ds, 0 ≤ d) → 0 ≤ p → p ≤ 1 →
      0 ≤ ds.foldl tickThreadProgress p ∧ ds.foldl tickThreadProgress p ≤ 1 := by
  induction ds with
  | nil => exact fun p _ h0 h1 => ⟨h0, h1⟩
  | cons d ds ih =>
    intro p hds h0 h1
    have hd : 0 ≤ d := hds d (List.mem_cons_self d ds)
    have hmem := tickThreadProgress_mem p d hd h0 h1
    simpa using ih (tickThreadProgress p d)
      (fun e he => hds e (List.mem_cons_of_mem d he)) hmem.1 hmem.2

/-- C10: the weaving-thread progress starts at 0, each tick with
nonnegative delta sets it to min(1, progress + delta * 0.025), it never
decreases, stays inside the unit interval over every tick sequence with
nonnegative deltas, and once it reaches 1 it stays 1. -/
theorem thread_progress_monotone_clamped :
    (∀ p d : ℚ, 0 ≤ d → 0 ≤ p → p ≤ 1 →
      tickThreadProgress p d = min 1 (p + d * 0.025)) ∧
    (∀ p d : ℚ, 0 ≤ d → p ≤ 1 → p ≤ tickThreadProgress p d) ∧
    (∀ d : ℚ, tickThreadProgress 1 d = 1) ∧
    (∀ ds : List ℚ, (∀ d ∈ ds, 0 ≤ d) →
      0 ≤ ds.foldl tickThreadProgress 0 ∧ ds.foldl tickThreadProgress 0 ≤ 1) := by
  refine ⟨?_, ?_, ?_, ?_⟩
  · intro p d hd h0 h1
    unfold tickThreadProgress
    by_cases h : p < 1
    · rw [if_pos h]
    · rw [if_neg h]
      have hp1 : p = 1 := le_antisymm h1 (not_lt.mp h)
      subst hp1
      exact (min_eq_left (le_add_of_nonneg_right
        (mul_nonneg hd (by norm_num)))).symm
  · intro p d hd h1
    unfold tickThreadProgress
    by_cases h : p < 1
    · rw [if_pos h]
      exact le_min h1 (le_add_of_nonneg_right (mul_nonneg hd (by norm_num)))
    · rw [if_neg h]
  · intro d
    unfold tickThreadProgress
    rw [if_neg (lt_irrefl 1)]
  · intro ds hds
    exact foldl_tickThreadProgress_bounds ds 0 hds (by norm_num) (by norm_num)

end WebgpuFun
